import Mathlib

/-!
Verification of the currency-conversion utility and the user-registration
helper of the `unit-test-demo` repository.

The module `src/utils/converter.js` assigns `exports.currencyConverter`
twice.  The first assignment (lines 8-22) validates the pair against a
nested `exchangeRates` object and then the amount; the second assignment
(lines 24-57) looks the pair up in a linear list of rate records and
multiplies without any validation.  In JavaScript the second assignment
overrides the first, so the module's effective export is the second
definition.  We embed both: `currencyConverterFirst` is the overridden
first definition and `currencyConverter` the effective export.

JavaScript numbers are embedded as rationals plus an explicit NaN value:
on every input exercised below the double-precision products coincide
with the rational ones (for instance `100 * 57.36` is exactly `5736` in
binary64, which the repository's own Jest test asserts), so the rational
model is faithful on the fragment used.
-/

namespace UnitTestDemo

/-- The JavaScript values that can reach the converter as the `amount`
argument in the repository and its spec: finite numbers, `NaN`, strings,
`null` and `undefined`. -/
inductive JSValue where
  | num (q : ℚ)
  | nan
  | str (s : String)
  | null
  | undefined
  deriving DecidableEq, Repr

/-- Failures a call can surface: an explicit `throw new Error(msg)`, or the
engine-raised `TypeError` from reading a property of `undefined` (its message
text is host-defined, so it is modelled as a distinguished constructor). -/
inductive JSError where
  | error (msg : String)
  | typeError
  deriving DecidableEq, Repr

/-- Value of a digits-only string read in base 10 (over the string's
character list). -/
def digitsToNat (s : String) : Nat :=
  s.data.foldl (fun n c => 10 * n + (c.toNat - 48)) 0

/-- JavaScript `ToNumber` on strings, restricted to the string shapes the
repository exercises: the empty string converts to `0`, a digits-only string
to its decimal value, and any other string (such as `"abc"`) to `NaN`
(`none`). -/
def jsStrToNumber (s : String) : Option ℚ :=
  if s.data.isEmpty then some 0
  else if s.data.all Char.isDigit then some (digitsToNat s)
  else none

/-- JavaScript `ToNumber`, as applied by the `*` operator to each operand;
`none` stands for `NaN`. -/
def jsToNumber : JSValue → Option ℚ
  | .num q => some q
  | .nan => none
  | .str s => jsStrToNumber s
  | .null => some 0
  | .undefined => none

/-- JavaScript multiplication on converted operands: `NaN` is absorbing,
otherwise exact multiplication (exact on every product exercised here, see
the module docstring). -/
def jsMul (a b : Option ℚ) : JSValue :=
  match a, b with
  | some x, some y => .num (x * y)
  | _, _ => .nan

/-- The nested `exchangeRates` table of `src/utils/converter.js`, lines 1-6:
`USD: INR 74.5, EUR 0.85, PHP 57.37; INR: USD 0.013; EUR: USD 1.18;
PHP: USD 0.017` (decimals written as exact fractions). -/
def exchangeRates : List (String × List (String × ℚ)) :=
  [("USD", [("INR", mkRat 745 10), ("EUR", mkRat 85 100), ("PHP", mkRat 5737 100)]),
   ("INR", [("USD", mkRat 13 1000)]),
   ("EUR", [("USD", mkRat 118 100)]),
   ("PHP", [("USD", mkRat 17 1000)])]

/-- JavaScript truthiness test for `!fromRates[toSymbol]`: an absent entry
(`undefined`) is falsy, and a numeric entry is falsy exactly when it is `0`. -/
def jsFalsyNum : Option ℚ → Bool
  | none => true
  | some q => q = 0

/-- The FIRST (overridden) `currencyConverter` of `src/utils/converter.js`,
lines 8-22: reject when `!fromRates || !fromRates[toSymbol]` with
`Error: Conversion rate from ... to ... not found.`, then reject when
`typeof amount !== 'number' || isNaN(amount)` with `Error: Invalid input`,
else return `amount * rate`. -/
def currencyConverterFirst (fromSymbol toSymbol : String) (amount : JSValue) :
    Except JSError JSValue :=
  let fromRates := exchangeRates.lookup fromSymbol
  let pairRate : Option ℚ := fromRates.bind (List.lookup toSymbol)
  if fromRates.isNone || jsFalsyNum pairRate then
    .error (.error ("Error: Conversion rate from " ++ fromSymbol ++ " to "
      ++ toSymbol ++ " not found."))
  else
    match amount with
    | .num q => .ok (.num (q * pairRate.getD 0))
    | _ => .error (.error "Error: Invalid input")

/-- The linear list of rate records of the SECOND `currencyConverter`
(lines 25-55): triples `(from, to, rate)`, where the `EUR → USD` record has
no `rate` field (`none`) and the `USD → PHP` record carries `57.36`. -/
def rateRecords : List (String × String × Option ℚ) :=
  [("USD", "INR", some (mkRat 745 10)),
   ("INR", "USD", some (mkRat 13 1000)),
   ("USD", "EUR", some (mkRat 85 100)),
   ("EUR", "USD", none),
   ("USD", "PHP", some (mkRat 5736 100)),
   ("PHP", "USD", some (mkRat 17 1000))]

/-- `Array.prototype.find` over the rate records with the predicate
`r.from === fromSymbol && r.to === toSymbol`. -/
def findRecord (fromSymbol toSymbol : String) :
    Option (String × String × Option ℚ) :=
  rateRecords.find? (fun r => r.1 == fromSymbol && r.2.1 == toSymbol)

/-- The SECOND `currencyConverter` of `src/utils/converter.js`, lines 24-57 —
the module's effective export, since it overrides the first assignment to
`exports.currencyConverter`.  When `find` misses, reading `.rate` off
`undefined` raises a `TypeError` before the amount is ever touched; when it
hits, the result is `amount * rate` with no validation, where a record
without a `rate` field contributes `undefined` (so the product is `NaN`). -/
def currencyConverter (fromSymbol toSymbol : String) (amount : JSValue) :
    Except JSError JSValue :=
  match findRecord fromSymbol toSymbol with
  | none => .error .typeError
  | some r => .ok (jsMul (jsToNumber amount) r.2.2)

/-- Numeric result of a call, when there is one. -/
def okNum : Except JSError JSValue → Option ℚ
  | .ok (.num q) => some q
  | _ => none

/-- The object returned by `registerUser` in `src/unnamed/part_002`. -/
structure RegisteredUser where
  email : String
  username : String
  password : String
  deriving DecidableEq, Repr

/-- `registerUser` of `src/unnamed/part_002`, lines 13-23: reject an email
without `'@'` (`email.includes('@')`, for a single-character needle the same
as character membership), then a password shorter than 8, then a username
shorter than 3, else return `{ email, username, password }`. -/
def registerUser (email password username : String) :
    Except JSError RegisteredUser :=
  if ¬ (email.data.contains '@') then .error (.error "Invalid email!")
  else if password.length < 8 then .error (.error "Password is too short!")
  else if username.length < 3 then .error (.error "Username is too short!")
  else .ok ⟨email, username, password⟩

instance {ε α : Type} [DecidableEq ε] [DecidableEq α] : DecidableEq (Except ε α) :=
  fun a b =>
    match a, b with
    | .ok x, .ok y =>
        if h : x = y then isTrue (congrArg Except.ok h)
        else isFalse (fun hh => h (Except.ok.inj hh))
    | .error x, .error y =>
        if h : x = y then isTrue (congrArg Except.error h)
        else isFalse (fun hh => h (Except.error.inj hh))
    | .ok _, .error _ => isFalse (fun hh => Except.noConfusion hh)
    | .error _, .ok _ => isFalse (fun hh => Except.noConfusion hh)

/-- Value form of the `USD → PHP` rate of the effective (second) definition. -/
lemma mkRat_5736_eq : (mkRat 5736 100 : ℚ) = 5736 / 100 := by norm_num

/-- Value form of the `USD → PHP` rate of the overridden (first) definition. -/
lemma mkRat_5737_eq : (mkRat 5737 100 : ℚ) = 5737 / 100 := by norm_num

/-- Congruence helper for successful numeric results. -/
lemma ok_num_eq {x y : ℚ} (h : x = y) :
    (Except.ok (JSValue.num x) : Except JSError JSValue) = .ok (.num y) := by
  rw [h]

/-- The effective converter on `(USD, PHP)` and a numeric amount multiplies by
the second definition's rate `57.36`. -/
lemma converter_USD_PHP (q : ℚ) :
    currencyConverter "USD" "PHP" (.num q) = .ok (.num (q * mkRat 5736 100)) := rfl

/-- The overridden first converter on `(USD, PHP)` and a numeric amount
multiplies by the first definition's rate `57.37`. -/
lemma converterFirst_USD_PHP (q : ℚ) :
    currencyConverterFirst "USD" "PHP" (.num q) = .ok (.num (q * mkRat 5737 100)) := rfl

/-- C1: the claim says a non-finite-numeric `amount` raises a typed
`InvalidAmount` failure and never produces `NaN`.  The effective export
performs no amount validation at all: `convert('USD','PHP','abc')` returns
`NaN`, so do `NaN` and `undefined` amounts, and `null` silently converts to
the sentinel result `0`. -/
theorem converter_no_amount_validation :
    currencyConverter "USD" "PHP" (.str "abc") = .ok .nan ∧
    currencyConverter "USD" "PHP" .nan = .ok .nan ∧
    currencyConverter "USD" "PHP" .undefined = .ok .nan ∧
    currencyConverter "USD" "PHP" .null = .ok (.num 0) := by
  refine ⟨rfl, rfl, rfl, ?_⟩
  exact (converter_USD_PHP 0).trans (ok_num_eq (by norm_num))

/-- C2 counterexample: `convert('USD','PHP',100)` in the effective export
returns `5736` (rate `57.36`), not the claimed `5737.0`. -/
theorem converter_USD_PHP_100_not_5737 :
    currencyConverter "USD" "PHP" (.num 100) = .ok (.num 5736) ∧
    currencyConverter "USD" "PHP" (.num 100) ≠ .ok (.num 5737) := by
  have h : currencyConverter "USD" "PHP" (.num 100) = .ok (.num 5736) :=
    (converter_USD_PHP 100).trans (ok_num_eq (by rw [mkRat_5736_eq]; norm_num))
  refine ⟨h, ?_⟩
  rw [h]
  simp only [ne_eq, Except.ok.injEq, JSValue.num.injEq]
  norm_num

/-- C2 (amended): when the pair is found and the amount numeric, the result is
exactly `amount * rate` with no rounding, but the effective rate for
`(USD, PHP)` is `57.36`, so `convert('USD','PHP',100)` returns `5736` (and
`convert('USD','PHP',50)` returns `2868`, as the repository's test asserts). -/
theorem converter_USD_PHP_exact_product :
    (∀ q : ℚ, currencyConverter "USD" "PHP" (.num q) = .ok (.num (q * (5736 / 100)))) ∧
    currencyConverter "USD" "PHP" (.num 100) = .ok (.num 5736) ∧
    currencyConverter "USD" "PHP" (.num 50) = .ok (.num 2868) := by
  refine ⟨fun q => (converter_USD_PHP q).trans (ok_num_eq (by rw [mkRat_5736_eq])), ?_, ?_⟩
  · exact (converter_USD_PHP 100).trans (ok_num_eq (by rw [mkRat_5736_eq]; norm_num))
  · exact (converter_USD_PHP 50).trans (ok_num_eq (by rw [mkRat_5736_eq]; norm_num))

/-- C3: the claim says a rate record with a missing multiplier is treated as
an absent entry (`UnknownConversionPair`) and never yields `NaN`.  The
effective export finds the `EUR → USD` record, whose `rate` field is missing,
and returns the computed `NaN` for any numeric amount. -/
theorem converter_EUR_USD_nan :
    findRecord "EUR" "USD" = some ("EUR", "USD", none) ∧
    currencyConverter "EUR" "USD" (.num 1) = .ok .nan ∧
    currencyConverter "EUR" "USD" (.num 100) = .ok .nan :=
  ⟨rfl, rfl, rfl⟩

/-- C4: the claim says an unknown pair raises `UnknownConversionPair` with a
message naming both currencies.  The effective export instead crashes with the
engine-raised `TypeError` from reading `.rate` off `undefined`, which names
neither currency; only the overridden first definition raised an `Error`
naming both. -/
theorem converter_unknown_pair_crashes :
    currencyConverter "USD" "XYZ" (.num 100) = .error .typeError ∧
    currencyConverterFirst "USD" "XYZ" (.num 100) =
      .error (.error "Error: Conversion rate from USD to XYZ not found.") :=
  ⟨rfl, rfl⟩

/-- C5 counterexample: for an amount that is not a finite number AND a pair
with no rate record, the claim says `InvalidAmount` is reported; the effective
export reports the pair-lookup `TypeError` instead (it has no amount check at
all), and even the overridden first definition checked the pair before the
amount. -/
theorem converter_order_counterexample :
    currencyConverter "USD" "XYZ" (.str "abc") = .error .typeError ∧
    currencyConverter "USD" "XYZ" (.str "abc") ≠ .error (.error "Error: Invalid input") ∧
    currencyConverterFirst "USD" "XYZ" (.str "abc") =
      .error (.error "Error: Conversion rate from USD to XYZ not found.") := by
  refine ⟨rfl, ?_, rfl⟩
  intro h
  exact JSError.noConfusion (Except.error.inj h)

/-- C5 (amended): the pair lookup comes first — the effective export fails
with the pair-lookup `TypeError` for every pair without a rate record,
regardless of the amount (valid or not), because it never validates the
amount. -/
theorem converter_pair_lookup_first (f t : String) (a : JSValue)
    (h : findRecord f t = none) :
    currencyConverter f t a = .error .typeError := by
  unfold currencyConverter
  rw [h]

/-- Witness for C5's amended theorem at `(USD, XYZ, 'abc')`. -/
theorem converter_pair_lookup_first_witness :
    findRecord "USD" "XYZ" = none ∧
    currencyConverter "USD" "XYZ" (.str "abc") = .error .typeError :=
  ⟨rfl, converter_pair_lookup_first "USD" "XYZ" (.str "abc") rfl⟩

/-- C6: lookups are direct-pair only — `PHP → USD` and `USD → EUR` records
both exist, yet `convert('PHP','EUR',10)` fails with the unknown-pair failure
(the `TypeError` of the effective export; the not-found `Error` of the
overridden first definition): no chaining through `USD`. -/
theorem converter_no_chaining :
    findRecord "PHP" "USD" ≠ none ∧
    findRecord "USD" "EUR" ≠ none ∧
    findRecord "PHP" "EUR" = none ∧
    currencyConverter "PHP" "EUR" (.num 10) = .error .typeError ∧
    currencyConverterFirst "PHP" "EUR" (.num 10) =
      .error (.error "Error: Conversion rate from PHP to EUR not found.") :=
  ⟨fun h => Option.noConfusion h, fun h => Option.noConfusion h, rfl, rfl, rfl⟩

/-- C7 counterexample: the effective export performs no case normalization —
`convert('usd','php',100)` crashes with the pair-lookup `TypeError` while
`convert('USD','PHP',100)` returns `5736`, so the two calls agree neither in
value nor in failure kind. -/
theorem converter_case_counterexample :
    currencyConverter "usd" "php" (.num 100) = .error .typeError ∧
    currencyConverter "USD" "PHP" (.num 100) = .ok (.num 5736) ∧
    currencyConverter "usd" "php" (.num 100) ≠ currencyConverter "USD" "PHP" (.num 100) := by
  have h : currencyConverter "USD" "PHP" (.num 100) = .ok (.num 5736) :=
    (converter_USD_PHP 100).trans (ok_num_eq (by rw [mkRat_5736_eq]; norm_num))
  refine ⟨rfl, h, ?_⟩
  rw [h]
  intro hc
  exact Except.noConfusion hc

/-- C7 (amended): currency codes are matched exactly against the stored
uppercase table form; any lowercased variant of `(USD, PHP)` fails with the
pair-lookup `TypeError` for every amount. -/
theorem converter_no_case_folding (a : JSValue) :
    currencyConverter "usd" "php" a = .error .typeError ∧
    currencyConverter "USD" "php" a = .error .typeError ∧
    currencyConverter "usd" "PHP" a = .error .typeError :=
  ⟨rfl, rfl, rfl⟩

/-- C8: linearity of the effective export on every pair whose record carries a
rate: the numeric result for amount `q` is `q * rate`, equals
`q * convert(from, to, 1)`, is `0` at amount `0`, and flips sign with the
amount. -/
theorem converter_linear (f t : String) (rec : String × String × Option ℚ)
    (r : ℚ) (h : findRecord f t = some rec) (hr : rec.2.2 = some r) (q : ℚ) :
    currencyConverter f t (.num q) = .ok (.num (q * r)) ∧
    okNum (currencyConverter f t (.num q)) =
      (okNum (currencyConverter f t (.num 1))).map (fun x => q * x) ∧
    okNum (currencyConverter f t (.num 0)) = some 0 ∧
    okNum (currencyConverter f t (.num (-q))) =
      (okNum (currencyConverter f t (.num q))).map (fun x => -x) := by
  have hall : ∀ p : ℚ, currencyConverter f t (.num p) = .ok (.num (p * r)) := by
    intro p
    unfold currencyConverter
    rw [h]
    show Except.ok (jsMul (jsToNumber (.num p)) rec.2.2) = _
    rw [hr]
    rfl
  refine ⟨hall q, ?_, ?_, ?_⟩
  · rw [hall q, hall 1]
    simp [okNum, mul_comm]
  · rw [hall 0]
    simp [okNum]
  · rw [hall q, hall (-q)]
    simp [okNum]

/-- Witness for C8 at `(USD, PHP)` with rate `57.36` and amount `100`. -/
theorem converter_linear_witness :
    findRecord "USD" "PHP" = some ("USD", "PHP", some (mkRat 5736 100)) ∧
    (currencyConverter "USD" "PHP" (.num 100) = .ok (.num (100 * mkRat 5736 100)) ∧
     okNum (currencyConverter "USD" "PHP" (.num 100)) =
       (okNum (currencyConverter "USD" "PHP" (.num 1))).map (fun x => 100 * x) ∧
     okNum (currencyConverter "USD" "PHP" (.num 0)) = some 0 ∧
     okNum (currencyConverter "USD" "PHP" (.num (-100))) =
       (okNum (currencyConverter "USD" "PHP" (.num 100))).map (fun x => -x)) :=
  ⟨rfl, converter_linear "USD" "PHP" ("USD", "PHP", some (mkRat 5736 100))
    (mkRat 5736 100) rfl rfl 100⟩

/-- C9 counterexample: the two successive definitions of `currencyConverter`
are not extensionally equal on `(USD, PHP)` — at amount `100` the overridden
first definition returns `5737` (rate `57.37`) while the effective second
definition returns `5736` (rate `57.36`). -/
theorem duplicate_defs_disagree :
    currencyConverterFirst "USD" "PHP" (.num 100) = .ok (.num 5737) ∧
    currencyConverter "USD" "PHP" (.num 100) = .ok (.num 5736) ∧
    currencyConverterFirst "USD" "PHP" (.num 100) ≠
      currencyConverter "USD" "PHP" (.num 100) := by
  have h1 : currencyConverterFirst "USD" "PHP" (.num 100) = .ok (.num 5737) :=
    (converterFirst_USD_PHP 100).trans (ok_num_eq (by rw [mkRat_5737_eq]; norm_num))
  have h2 : currencyConverter "USD" "PHP" (.num 100) = .ok (.num 5736) :=
    (converter_USD_PHP 100).trans (ok_num_eq (by rw [mkRat_5736_eq]; norm_num))
  refine ⟨h1, h2, ?_⟩
  rw [h1, h2]
  simp only [ne_eq, Except.ok.injEq, JSValue.num.injEq]
  norm_num

/-- C9 (amended): on `(USD, PHP)` the two successive definitions agree exactly
at the numeric amount `0`: on any other JavaScript value they differ, the
first using rate `57.37` and validating the amount, the second (the effective
export) using rate `57.36` and not validating it. -/
theorem duplicate_defs_agree_iff_zero (v : JSValue) :
    currencyConverterFirst "USD" "PHP" v = currencyConverter "USD" "PHP" v ↔
      v = .num 0 := by
  cases v with
  | num q =>
    rw [converterFirst_USD_PHP q, converter_USD_PHP q]
    simp only [Except.ok.injEq, JSValue.num.injEq]
    constructor
    · intro hq
      have hz : q * (mkRat 5737 100 - mkRat 5736 100) = 0 := by
        rw [mul_sub, hq, sub_self]
      rcases mul_eq_zero.mp hz with h0 | h0
      · exact h0
      · exfalso
        rw [mkRat_5737_eq, mkRat_5736_eq] at h0
        norm_num at h0
    · intro h0
      rw [h0, zero_mul, zero_mul]
  | nan =>
    have h1 : currencyConverterFirst "USD" "PHP" .nan =
        .error (.error "Error: Invalid input") := rfl
    have h2 : currencyConverter "USD" "PHP" .nan = .ok .nan := rfl
    rw [h1, h2]
    simp
  | str s =>
    have h1 : currencyConverterFirst "USD" "PHP" (.str s) =
        .error (.error "Error: Invalid input") := rfl
    have h2 : currencyConverter "USD" "PHP" (.str s) =
        .ok (jsMul (jsStrToNumber s) (some (mkRat 5736 100))) := rfl
    rw [h1, h2]
    simp
  | null =>
    have h1 : currencyConverterFirst "USD" "PHP" .null =
        .error (.error "Error: Invalid input") := rfl
    have h2 : currencyConverter "USD" "PHP" .null = .ok (.num (0 * mkRat 5736 100)) := rfl
    rw [h1, h2]
    simp
  | undefined =>
    have h1 : currencyConverterFirst "USD" "PHP" .undefined =
        .error (.error "Error: Invalid input") := rfl
    have h2 : currencyConverter "USD" "PHP" .undefined = .ok .nan := rfl
    rw [h1, h2]
    simp

/-- C10: `registerUser` returns the `{ email, username, password }` object
with the arguments unchanged exactly when the email contains `'@'`, the
password has length at least 8 and the username length at least 3; otherwise
it throws, the email check taking precedence over the password check and the
password check over the username check. -/
theorem registerUser_characterization (e p u : String) :
    (registerUser e p u = .ok ⟨e, u, p⟩ ↔
      (e.data.contains '@' = true ∧ 8 ≤ p.length ∧ 3 ≤ u.length)) ∧
    (e.data.contains '@' = false →
      registerUser e p u = .error (.error "Invalid email!")) ∧
    (e.data.contains '@' = true → p.length < 8 →
      registerUser e p u = .error (.error "Password is too short!")) ∧
    (e.data.contains '@' = true → 8 ≤ p.length → u.length < 3 →
      registerUser e p u = .error (.error "Username is too short!")) := by
  by_cases h1 : e.data.contains '@' = true
  · by_cases h2 : p.length < 8
    · have hr : registerUser e p u = .error (.error "Password is too short!") := by
        unfold registerUser
        rw [if_neg (not_not_intro h1), if_pos h2]
      refine ⟨?_, ?_, fun _ _ => hr, fun _ hp _ => absurd hp (by omega)⟩
      · rw [hr]
        constructor
        · intro hh
          exact Except.noConfusion hh
        · rintro ⟨-, hp, -⟩
          exact absurd hp (by omega)
      · intro hf
        rw [h1] at hf
        exact Bool.noConfusion hf
    · by_cases h3 : u.length < 3
      · have hr : registerUser e p u = .error (.error "Username is too short!") := by
          unfold registerUser
          rw [if_neg (not_not_intro h1), if_neg h2, if_pos h3]
        refine ⟨?_, ?_, fun _ hp => absurd hp h2, fun _ _ _ => hr⟩
        · rw [hr]
          constructor
          · intro hh
            exact Except.noConfusion hh
          · rintro ⟨-, -, hu⟩
            exact absurd hu (by omega)
        · intro hf
          rw [h1] at hf
          exact Bool.noConfusion hf
      · have hr : registerUser e p u = .ok ⟨e, u, p⟩ := by
          unfold registerUser
          rw [if_neg (not_not_intro h1), if_neg h2, if_neg h3]
        refine ⟨?_, ?_, fun _ hp => absurd hp h2, fun _ _ hu => absurd hu h3⟩
        · rw [hr]
          constructor
          · intro _
            exact ⟨h1, by omega, by omega⟩
          · intro _
            rfl
        · intro hf
          rw [h1] at hf
          exact Bool.noConfusion hf
  · have hf : e.data.contains '@' = false := by
      revert h1
      cases e.data.contains '@' <;> simp
    have hr : registerUser e p u = .error (.error "Invalid email!") := by
      unfold registerUser
      rw [if_pos h1]
    refine ⟨?_, fun _ => hr, fun ht => absurd ht h1, fun ht => absurd ht h1⟩
    rw [hr]
    constructor
    · intro hh
      exact Except.noConfusion hh
    · rintro ⟨hc, -, -⟩
      exact absurd hc h1

/-- Witness for C10: a registration in which every check passes. -/
theorem registerUser_characterization_witness :
    registerUser "a@b.com" "password123" "bob" =
      .ok ⟨"a@b.com", "bob", "password123"⟩ :=
  (registerUser_characterization "a@b.com" "password123" "bob").1.mpr (by decide)

end UnitTestDemo
